import Mathlib

/-!
Shallow embedding of `src/homework.py`: a fitness-tracker module with an
`InfoMessage` record and formatter, a `Training` base class with three
variants (`Running`, `SportsWalking`, `Swimming`), a dispatcher
`read_package`, and a driver.  Python float arithmetic is modelled by exact
rational arithmetic over `ℚ`; Python's float floor-division `//` is modelled
by `floorDiv` (floor toward negative infinity); Python's `'{:.3f}'.format`
is modelled by `formatFixed3` (fixed-point, three digits after the point,
ties rounded half-up).
-/

namespace Homework

/-- Model of Python's `//` on floats: floor division, rounding toward negative
infinity, modelled on rationals. -/
def floorDiv (x y : ℚ) : ℚ := ((Int.floor (x / y) : ℤ) : ℚ)

/-- Decimal digit characters of a natural number, most significant first;
models the integer part of Python's decimal rendering. -/
def natDecimalDigits (n : ℕ) : List Char :=
  if _h : n < 10 then [Nat.digitChar n]
  else natDecimalDigits (n / 10) ++ [Nat.digitChar (n % 10)]
termination_by n
decreasing_by exact Nat.div_lt_self (by omega) (by omega)

/-- Model of Python's `'{:.3f}'.format(q)`: fixed-point rendering with
exactly three digits after the decimal point (ties rounded half-up). -/
def formatFixed3 (q : ℚ) : String :=
  (if round (q * 1000) < 0 then "-" else "") ++
  String.mk (natDecimalDigits ((round (q * 1000)).natAbs / 1000)) ++ "." ++
  String.mk [Nat.digitChar ((round (q * 1000)).natAbs / 100 % 10),
             Nat.digitChar ((round (q * 1000)).natAbs / 10 % 10),
             Nat.digitChar ((round (q * 1000)).natAbs % 10)]

/-- The `InfoMessage` dataclass of `homework.py`. -/
structure InfoMessage where
  training_type : String
  duration : ℚ
  distance : ℚ
  speed : ℚ
  calories : ℚ
deriving DecidableEq

/-- Embedding of `InfoMessage.get_message`: the fixed (Russian-language) template of
`homework.py`, with the four numeric fields rendered via `{:.3f}`. -/
def InfoMessage.get_message (m : InfoMessage) : String :=
  "Тип тренировки: " ++ m.training_type ++ "; Длительность: " ++
    formatFixed3 m.duration ++ " ч.; Дистанция: " ++ formatFixed3 m.distance ++
    " км; Ср. скорость: " ++ formatFixed3 m.speed ++ " км/ч; Потрачено ккал: " ++
    formatFixed3 m.calories ++ "."

/-- The closed set of training variants of `homework.py`: `Running`,
`SportsWalking`, `Swimming`, each holding its constructor fields. -/
inductive Training where
  | running (action duration weight : ℚ)
  | sportsWalking (action duration weight height : ℚ)
  | swimming (action duration weight length_pool count_pool : ℚ)
deriving DecidableEq

/-- Constant `Training.M_IN_KM = 1000`. -/
def M_IN_KM : ℚ := 1000

/-- Constant `Training.MIN_IN_HOUR = 60`. -/
def MIN_IN_HOUR : ℚ := 60

/-- The `action` field, common to all variants. -/
def Training.action : Training → ℚ
  | .running a _ _ => a
  | .sportsWalking a _ _ _ => a
  | .swimming a _ _ _ _ => a

/-- The `duration` field, common to all variants. -/
def Training.duration : Training → ℚ
  | .running _ d _ => d
  | .sportsWalking _ d _ _ => d
  | .swimming _ d _ _ _ => d

/-- The `weight` field, common to all variants. -/
def Training.weight : Training → ℚ
  | .running _ _ w => w
  | .sportsWalking _ _ w _ => w
  | .swimming _ _ w _ _ => w

/-- Constant `LEN_STEP`: 0.65 on the base class, overridden to 1.38 by `Swimming`. -/
def Training.LEN_STEP : Training → ℚ
  | .running _ _ _ => 0.65
  | .sportsWalking _ _ _ _ => 0.65
  | .swimming _ _ _ _ _ => 1.38

/-- Embedding of `Training.get_distance`: `action * LEN_STEP / M_IN_KM`. -/
def Training.get_distance (t : Training) : ℚ :=
  t.action * t.LEN_STEP / M_IN_KM

/-- Embedding of `get_mean_speed`: base-class `get_distance() / duration`, overridden by
`Swimming` with `length_pool * count_pool / M_IN_KM / duration`. -/
def Training.get_mean_speed (t : Training) : ℚ :=
  match t with
  | .swimming _ d _ l c => l * c / M_IN_KM / d
  | _ => t.get_distance / t.duration

/-- Embedding of `get_spent_calories`, one formula per variant, coefficients as in
`homework.py` (`Running`: 18, 20; `SportsWalking`: 0.035, 2, 0.029;
`Swimming`: 1.1, 2).  The walking formula uses `mean_speed ** 2 // height`,
i.e. floor division after exponentiation. -/
def Training.get_spent_calories : Training → ℚ
  | .running a d w =>
      (18 * Training.get_mean_speed (.running a d w) - 20) * w / M_IN_KM
        * d * MIN_IN_HOUR
  | .sportsWalking a d w h =>
      (0.035 * w
        + floorDiv (Training.get_mean_speed (.sportsWalking a d w h) ^ 2) h
          * 0.029 * w) * d * MIN_IN_HOUR
  | .swimming a d w l c =>
      (Training.get_mean_speed (.swimming a d w l c) + 1.1) * 2 * w

/-- Model of `self.__class__.__name__`: the runtime class name of the variant. -/
def Training.class_name : Training → String
  | .running _ _ _ => "Running"
  | .sportsWalking _ _ _ _ => "SportsWalking"
  | .swimming _ _ _ _ _ => "Swimming"

/-- Embedding of `Training.show_training_info`: assembles the `InfoMessage` from the
class name and the computed quantities. -/
def Training.show_training_info (t : Training) : InfoMessage :=
  ⟨t.class_name, t.duration, t.get_distance, t.get_mean_speed,
    t.get_spent_calories⟩

/-- Failure modes of `read_package`: a `KeyError` on an unknown workout
type (UnknownActivityType), or a `TypeError` from unpacking a `data` list
whose length does not match the constructor arity (ArityMismatch). -/
inductive ReadPackageError where
  | unknownActivityType
  | arityMismatch
deriving DecidableEq

/-- Embedding of `read_package`: dictionary lookup `{'SWM': Swimming, 'RUN': Running,
'WLK': SportsWalking}` followed by the positional call `cls(*data)`. -/
def read_package (workout_type : String) (data : List ℚ) :
    Except ReadPackageError Training :=
  if workout_type = "SWM" then
    match data with
    | [a, d, w, l, c] => .ok (.swimming a d w l c)
    | _ => .error .arityMismatch
  else if workout_type = "RUN" then
    match data with
    | [a, d, w] => .ok (.running a d w)
    | _ => .error .arityMismatch
  else if workout_type = "WLK" then
    match data with
    | [a, d, w, h] => .ok (.sportsWalking a d w h)
    | _ => .error .arityMismatch
  else .error .unknownActivityType

/-- The Walking calorie formula as the spec states it: calories =
(0.035 × weight + ((mean_speed ^ 2) floor-divided by height) × 0.029 ×
weight) × duration × 60, with mean_speed = action × 0.65 / 1000 / duration
and the inner division taken as floor division (toward negative infinity). -/
def walking_calories_spec (action duration weight height : ℚ) : ℚ :=
  (0.035 * weight
    + floorDiv ((action * 0.65 / 1000 / duration) ^ 2) height * 0.029 * weight)
    * duration * 60

/-- Shape predicate for a fixed-point rendering with exactly three digits
after the decimal point: an optional minus sign, a nonempty run of decimal
digits, one decimal point, then exactly three decimal digits — in
particular, no exponent marker. -/
def fixedPoint3 (s : String) : Prop :=
  ∃ (sign : String) (intDigits : List Char) (f1 f2 f3 : Char),
    s = sign ++ String.mk intDigits ++ "." ++ String.mk [f1, f2, f3] ∧
    (sign = "" ∨ sign = "-") ∧
    intDigits ≠ [] ∧
    (∀ ch ∈ intDigits, ch.isDigit = true) ∧
    f1.isDigit = true ∧ f2.isDigit = true ∧ f3.isDigit = true

theorem digitChar_isDigit (k : ℕ) (hk : k < 10) :
    (Nat.digitChar k).isDigit = true := by
  interval_cases k <;> decide

theorem natDecimalDigits_ne_nil (n : ℕ) : natDecimalDigits n ≠ [] := by
  unfold natDecimalDigits
  split <;> simp

theorem natDecimalDigits_isDigit (n : ℕ) :
    ∀ ch ∈ natDecimalDigits n, ch.isDigit = true := by
  induction n using Nat.strong_induction_on with
  | _ n ih =>
    unfold natDecimalDigits
    split
    · next h10 =>
      intro ch hch
      simp only [List.mem_singleton] at hch
      subst hch
      exact digitChar_isDigit n h10
    · next h10 =>
      intro ch hch
      rw [List.mem_append] at hch
      rcases hch with hch | hch
      · exact ih (n / 10) (Nat.div_lt_self (by omega) (by omega)) ch hch
      · simp only [List.mem_singleton] at hch
        subst hch
        exact digitChar_isDigit _ (Nat.mod_lt _ (by omega))

theorem formatFixed3_fixedPoint3 (q : ℚ) : fixedPoint3 (formatFixed3 q) := by
  refine ⟨(if round (q * 1000) < 0 then "-" else ""),
    natDecimalDigits ((round (q * 1000)).natAbs / 1000),
    Nat.digitChar ((round (q * 1000)).natAbs / 100 % 10),
    Nat.digitChar ((round (q * 1000)).natAbs / 10 % 10),
    Nat.digitChar ((round (q * 1000)).natAbs % 10),
    rfl, ?_, natDecimalDigits_ne_nil _, natDecimalDigits_isDigit _,
    digitChar_isDigit _ (Nat.mod_lt _ (by omega)),
    digitChar_isDigit _ (Nat.mod_lt _ (by omega)),
    digitChar_isDigit _ (Nat.mod_lt _ (by omega))⟩
  split <;> simp

/-- C1 counterexample: for the dispatcher fixture
construct("RUN", [15000, 1, 75]) the summary's calorie field is not 700.5:
the implementation's formula gives (18 × 9.75 − 20) × 75 / 1000 × 1 × 60 =
699.75, so the spec's stated regression value 700.5 is not reproduced. -/
theorem run_fixture_calories_ne :
    read_package "RUN" [15000, 1, 75] = .ok (.running 15000 1 75) ∧
    (Training.show_training_info (.running 15000 1 75)).calories ≠ 700.5 := by
  refine ⟨rfl, ?_⟩
  norm_num [Training.show_training_info, Training.get_spent_calories,
    Training.get_mean_speed, Training.get_distance, Training.LEN_STEP,
    Training.action, Training.duration, M_IN_KM, MIN_IN_HOUR]

/-- C1 (amended): for the dispatcher fixture construct("RUN", [15000, 1, 75]),
the resulting Running calculator has mean speed 15000 × 0.65 / 1000 / 1 =
9.75 km/h and its summary's calorie field equals
(18 × 9.75 − 20) × 75 / 1000 × 1 × 60 = 699.75 exactly. -/
theorem run_fixture_summary :
    read_package "RUN" [15000, 1, 75] = .ok (.running 15000 1 75) ∧
    Training.get_mean_speed (.running 15000 1 75) = 9.75 ∧
    (Training.show_training_info (.running 15000 1 75)).calories = 699.75 := by
  refine ⟨rfl, ?_, ?_⟩ <;>
  norm_num [Training.show_training_info, Training.get_spent_calories,
    Training.get_mean_speed, Training.get_distance, Training.LEN_STEP,
    Training.action, Training.duration, M_IN_KM, MIN_IN_HOUR]

/-- C2: for every Walking input, the implementation's calorie computation
equals (0.035 × weight + ((mean_speed ^ 2) floor-divided by height) × 0.029
× weight) × duration × 60, with the division after the exponentiation taken
as floor division (toward negative infinity).  The second conjunct
exhibits the floor behaviour at a negative height, where the quotient
0.4225 / (−2) = −0.21125 floors to −1 (truncation toward zero would give
0). -/
theorem walking_calories_matches_spec :
    (∀ a d w h, Training.get_spent_calories (.sportsWalking a d w h) =
      walking_calories_spec a d w h) ∧
    Training.get_spent_calories (.sportsWalking 1000 1 1 (-2)) =
      (0.035 * 1 + (-1) * 0.029 * 1) * 1 * 60 := by
  refine ⟨fun a d w h => rfl, ?_⟩
  norm_num [Training.get_spent_calories, Training.get_mean_speed,
    Training.get_distance, Training.LEN_STEP, Training.action,
    Training.duration, M_IN_KM, MIN_IN_HOUR, floorDiv]

/-- C3 counterexample: the formatter does not produce the English template
the claim states; at the summary with label "Running" and all numeric
fields 1, the produced line differs from the English-template rendering of
the same fields. -/
theorem get_message_not_english_template :
    (InfoMessage.get_message ⟨"Running", 1, 1, 1, 1⟩) ≠
      "Activity type: Running; Duration: 1.000 h; Distance: 1.000 km; Avg speed: 1.000 km/h; Calories burned: 1.000." := by
  decide

/-- C3 (amended): for every Summary, the formatter produces exactly the
fixed Russian-language template "Тип тренировки: \x7blabel\x7d; Длительность:
\x7bduration:.3f\x7d ч.; Дистанция: \x7bdistance:.3f\x7d км; Ср. скорость: \x7bspeed:.3f\x7d
км/ч; Потрачено ккал: \x7bcalories:.3f\x7d." with the five fields substituted. -/
theorem get_message_template (m : InfoMessage) :
    m.get_message =
      "Тип тренировки: " ++ m.training_type ++ "; Длительность: " ++
        formatFixed3 m.duration ++ " ч.; Дистанция: " ++
        formatFixed3 m.distance ++ " км; Ср. скорость: " ++
        formatFixed3 m.speed ++ " км/ч; Потрачено ккал: " ++
        formatFixed3 m.calories ++ "." := rfl

/-- C4: for the dispatcher fixture construct("SWM", [720, 1, 80, 25, 40]),
the resulting Swimming calculator has distance 720 × 1.38 / 1000 = 0.9936
km, mean speed 25 × 40 / 1000 / 1 = 1.0 km/h, and calories
(1.0 + 1.1) × 2 × 80 = 336.0, each exactly. -/
theorem swm_fixture :
    read_package "SWM" [720, 1, 80, 25, 40] = .ok (.swimming 720 1 80 25 40) ∧
    Training.get_distance (.swimming 720 1 80 25 40) = 0.9936 ∧
    Training.get_mean_speed (.swimming 720 1 80 25 40) = 1 ∧
    Training.get_spent_calories (.swimming 720 1 80 25 40) = 336 := by
  refine ⟨rfl, ?_, ?_, ?_⟩ <;>
  norm_num [Training.get_spent_calories, Training.get_mean_speed,
    Training.get_distance, Training.LEN_STEP, Training.action,
    Training.duration, M_IN_KM, MIN_IN_HOUR]

/-- C5: the dispatcher maps "SWM" to a Swimming calculator, "RUN" to
Running, and "WLK" to SportsWalking, and for every other type code it
fails with the UnknownActivityType error instead of returning a
calculator. -/
theorem dispatch_codes :
    (∀ a d w, read_package "RUN" [a, d, w] = .ok (.running a d w)) ∧
    (∀ a d w h, read_package "WLK" [a, d, w, h] = .ok (.sportsWalking a d w h)) ∧
    (∀ a d w l c, read_package "SWM" [a, d, w, l, c] = .ok (.swimming a d w l c)) ∧
    (∀ code data, code ≠ "SWM" → code ≠ "RUN" → code ≠ "WLK" →
      read_package code data = .error .unknownActivityType) := by
  refine ⟨fun a d w => rfl, fun a d w h => rfl, fun a d w l c => rfl, ?_⟩
  intro code data h1 h2 h3
  simp [read_package, h1, h2, h3]

/-- C5 witness: construct("XYZ", [1, 2, 3]) fails with
UnknownActivityType. -/
theorem dispatch_codes_witness :
    read_package "XYZ" [1, 2, 3] = .error .unknownActivityType :=
  dispatch_codes.2.2.2 "XYZ" [1, 2, 3] (by decide) (by decide) (by decide)

/-- C6: for each recognized type code, a data list whose length differs
from the resolved variant's constructor arity (3 for Running, 4 for
SportsWalking, 5 for Swimming) makes the dispatcher fail with the
ArityMismatch error instead of returning a calculator. -/
theorem dispatch_arity :
    (∀ data, data.length ≠ 3 → read_package "RUN" data = .error .arityMismatch) ∧
    (∀ data, data.length ≠ 4 → read_package "WLK" data = .error .arityMismatch) ∧
    (∀ data, data.length ≠ 5 → read_package "SWM" data = .error .arityMismatch) := by
  refine ⟨?_, ?_, ?_⟩ <;>
    intro data h <;>
    rcases data with _ | ⟨a, _ | ⟨b, _ | ⟨c, _ | ⟨e, _ | ⟨f, _ | ⟨g, tl⟩⟩⟩⟩⟩⟩ <;>
    first
      | rfl
      | simp at h

/-- C6 witness: construct("RUN", [1, 2]) fails with ArityMismatch. -/
theorem dispatch_arity_witness :
    read_package "RUN" [1, 2] = .error .arityMismatch :=
  dispatch_arity.1 [1, 2] (by decide)

/-- C7: for each of the three variants, distance is strictly proportional
to action count: with the other fields fixed, doubling the action doubles
the distance. -/
theorem distance_proportional (a d w h l c : ℚ) :
    Training.get_distance (.running (2 * a) d w) =
      2 * Training.get_distance (.running a d w) ∧
    Training.get_distance (.sportsWalking (2 * a) d w h) =
      2 * Training.get_distance (.sportsWalking a d w h) ∧
    Training.get_distance (.swimming (2 * a) d w l c) =
      2 * Training.get_distance (.swimming a d w l c) := by
  refine ⟨?_, ?_, ?_⟩ <;>
    simp [Training.get_distance, Training.action, Training.LEN_STEP, M_IN_KM] <;>
    ring

/-- C8: Swimming's mean speed depends only on pool length, lap count and
duration: two Swimming inputs agreeing on those but differing in action
count and weight get the same mean speed, namely
length_pool × count_pool / 1000 / duration. -/
theorem swimming_speed_independent (a a2 d w w2 l c : ℚ) :
    Training.get_mean_speed (.swimming a d w l c) =
      Training.get_mean_speed (.swimming a2 d w2 l c) ∧
    Training.get_mean_speed (.swimming a d w l c) = l * c / 1000 / d :=
  ⟨rfl, rfl⟩

/-- C9: every formatted message is the fixed template with the four
numeric fields each rendered in fixed-point notation with exactly three
digits after the decimal point (an optional sign, decimal digits, one
point, then exactly three decimal digits — no scientific notation). -/
theorem message_fields_fixed_point (m : InfoMessage) :
    ∃ sd st ss sc : String,
      fixedPoint3 sd ∧ fixedPoint3 st ∧ fixedPoint3 ss ∧ fixedPoint3 sc ∧
      m.get_message =
        "Тип тренировки: " ++ m.training_type ++ "; Длительность: " ++ sd ++
          " ч.; Дистанция: " ++ st ++ " км; Ср. скорость: " ++ ss ++
          " км/ч; Потрачено ккал: " ++ sc ++ "." :=
  ⟨_, _, _, _, formatFixed3_fixedPoint3 _, formatFixed3_fixedPoint3 _,
    formatFixed3_fixedPoint3 _, formatFixed3_fixedPoint3 _, rfl⟩

/-- C10: the summary's activity label is the runtime class name of the
concrete calculator: "Running" for the RUN variant, "Swimming" for SWM,
and "SportsWalking" (not "Walking") for the WLK variant. -/
theorem activity_label_is_class_name (a d w h l c : ℚ) :
    (Training.show_training_info (.running a d w)).training_type = "Running" ∧
    (Training.show_training_info (.swimming a d w l c)).training_type = "Swimming" ∧
    (Training.show_training_info (.sportsWalking a d w h)).training_type = "SportsWalking" ∧
    read_package "WLK" [a, d, w, h] = .ok (.sportsWalking a d w h) ∧
    (Training.show_training_info (.sportsWalking a d w h)).training_type ≠ "Walking" :=
  ⟨rfl, rfl, rfl, rfl, by
    show ("SportsWalking" : String) ≠ "Walking"
    decide⟩

end Homework
